import Mathlib

/-!
Verification of the `openrouteservice.geocode` module (a Pelias request
builder).  The three public operations `pelias_search`,
`pelias_structured` and `pelias_reverse` are shallowly embedded below:
Python values become the inductive `PyVal`, the parameter dictionary
becomes an insertion-ordered association list with Python `dict`
overwrite semantics, raised exceptions become `Except PyErr`, and the
final `client.request(path, params, dry_run)` call becomes the returned
`Request` value (a request is issued iff the result is `.ok`).
-/

namespace Geocode

mutual

/-- A dynamically typed Python value, restricted to the shapes the
geocode module can encounter.  A Python float is modelled as an exact
decimal `m / 10 ^ e` (mantissa and decimal exponent). -/
inductive PyVal where
  | none
  | bool (b : Bool)
  | int (n : Int)
  | float (m : Int) (e : Nat)
  | str (s : String)
  | list (xs : PyList)
  | tuple (xs : PyList)

/-- A Python list/tuple payload (kept mutual with `PyVal` so that all
functions on values are structurally recursive). -/
inductive PyList where
  | nil
  | cons (hd : PyVal) (tl : PyList)

end

/-- A raised Python exception, as the geocode module can raise it. -/
inductive PyErr where
  | typeError (msg : String)
  | valueError (msg : String)
  | indexError (msg : String)

/-- Embed a Lean list of values as a `PyList`. -/
def pyList : List PyVal → PyList
  | [] => .nil
  | a :: rest => .cons a (pyList rest)

/-- Whether a `PyList` is empty. -/
def PyList.isNil : PyList → Bool
  | .nil => true
  | .cons _ _ => false

/-- Element access in a `PyList`. -/
def PyList.get? : PyList → Nat → Option PyVal
  | .nil, _ => Option.none
  | .cons a _, 0 => some a
  | .cons _ tl, n + 1 => tl.get? n

/-- Python truthiness (`if x:`). -/
def truthy : PyVal → Bool
  | .none => false
  | .bool b => b
  | .int n => decide (n ≠ 0)
  | .float m _ => decide (m ≠ 0)
  | .str s => decide (s ≠ "")
  | .list xs => !xs.isNil
  | .tuple xs => !xs.isNil

/-- `isinstance(x, str)`. -/
def isStr : PyVal → Bool
  | .str _ => true
  | _ => false

/-- Python `x == t` for a string literal `t`: only a `str` with the same
characters compares equal to a string. -/
def pyEqStr (x : PyVal) (t : String) : Bool :=
  match x with
  | .str s => decide (s = t)
  | _ => false

/-- Python `x in ts` for a list of string literals `ts`. -/
def inStrList (x : PyVal) (ts : List String) : Bool :=
  ts.any (fun t => pyEqStr x t)

/-- Python `all(x in ts for x in xs)`. -/
def allInStrList (xs : PyList) (ts : List String) : Bool :=
  match xs with
  | .nil => true
  | .cons a tl => inStrList a ts && allInStrList tl ts

/-- The elements of a Python sequence (callers establish `isList` first). -/
def elems : PyVal → PyList
  | .list xs => xs
  | .tuple xs => xs
  | _ => .nil

/-- Modelled from the spec: the sequence-type predicate of the shared
`convert` module (not among the sources) used for input validation; a
bare string is not a sequence. -/
def isList : PyVal → Bool
  | .list _ => true
  | .tuple _ => true
  | _ => false

/-- Zero-pad a natural number to `w` digits. -/
def natPadTo (w : Nat) (n : Nat) : String :=
  let s := toString n
  String.mk (List.replicate (w - s.length) '0') ++ s

/-- Drop trailing `'0'` characters. -/
def stripZeros (s : String) : String :=
  String.mk ((s.data.reverse.dropWhile fun c => c = '0').reverse)

/-- Decimal rendering of `m / 10 ^ e`, trailing zeros and a trailing
point removed (the behaviour of `("%f" % x).rstrip("0").rstrip(".")` on
exactly representable values). -/
def decRender (m : Int) (e : Nat) : String :=
  let sgn := if m < 0 then "-" else ""
  let n := m.natAbs
  let ip := n / 10 ^ e
  let fr := n % 10 ^ e
  let fs := stripZeros (natPadTo e fr)
  sgn ++ toString ip ++ (if fs = "" then "" else "." ++ fs)

/-- Modelled from the spec: the shared float formatter of the `convert`
module (not among the sources): number to deterministic decimal string,
no scientific notation.  Non-numeric input is outside its documented
contract and yields a local error, never a formatted string. -/
def formatFloat : PyVal → Except PyErr String
  | .int n => .ok (toString n)
  | .float m e => .ok (decRender m e)
  | .bool b => .ok (if b then "1" else "0")
  | _ => .error (.valueError "could not convert value to float")

mutual

/-- Python `repr`, for the value shapes reachable here. -/
def pyRepr : PyVal → String
  | .none => "None"
  | .bool b => if b then "True" else "False"
  | .int n => toString n
  | .float m e => decRender m e
  | .str s => "\x27" ++ s ++ "\x27"
  | .list xs => "[" ++ pyReprList xs ++ "]"
  | .tuple xs => "(" ++ pyReprList xs ++ ")"

/-- `", ".join(repr(x) for x in xs)`. -/
def pyReprList : PyList → String
  | .nil => ""
  | .cons a .nil => pyRepr a
  | .cons a (.cons b tl) => pyRepr a ++ ", " ++ pyReprList (.cons b tl)

end

/-- Python `str`, for the value shapes reachable here. -/
def pyStr : PyVal → String
  | .str s => s
  | v => pyRepr v

/-- Modelled from the spec: the comma-list joiner of the shared `convert`
module (not among the sources): a sequence becomes a single
comma-delimited string, `",".join(map(str, xs))`. -/
def commaList : PyList → String
  | .nil => ""
  | .cons a .nil => pyStr a
  | .cons a (.cons b tl) => pyStr a ++ "," ++ commaList (.cons b tl)

/-- `valid_sources` from the source module. -/
def valid_sources : List String := ["osm", "oa", "wof", "gn"]

/-- `valid_layers` from the source module (13 entries, `county` twice). -/
def valid_layers : List String :=
  ["venue", "address", "street", "neighbourhood", "borough", "localadmin",
   "locality", "county", "macrocounty", "region", "macroregion", "county",
   "coarse"]

/-- The parameter dictionary: an insertion-ordered association list. -/
abbrev Params := List (String × PyVal)

/-- Python `d[k]` read access (`None` when the key is absent). -/
def pfind : Params → String → Option PyVal
  | [], _ => Option.none
  | (k', v) :: rest, k => if k' = k then some v else pfind rest k

/-- Python `d[k] = v`: replace the first binding of `k` in place, else
append a new binding at the end. -/
def dictSet : Params → String → PyVal → Params
  | [], k, v => [(k, v)]
  | (k', w) :: rest, k, v =>
      if k' = k then (k, v) :: rest else (k', w) :: dictSet rest k v

/-- Whether the dictionary has a binding for `k`. -/
def hasKeyB (p : Params) (k : String) : Bool :=
  (pfind p k).isSome

/-- Python subscription `x[i]` for a non-negative literal index. -/
def getItem : PyVal → Nat → Except PyErr PyVal
  | .list xs, i =>
      match xs.get? i with
      | some v => .ok v
      | Option.none => .error (.indexError "list index out of range")
  | .tuple xs, i =>
      match xs.get? i with
      | some v => .ok v
      | Option.none => .error (.indexError "tuple index out of range")
  | .str s, i =>
      match s.data.get? i with
      | some c => .ok (.str (String.mk [c]))
      | Option.none => .error (.indexError "string index out of range")
  | _, _ => .error (.typeError "object is not subscriptable")

/-- The single delegated call `client.request(path, params, dry_run)`:
the opaque client is modelled by returning the request itself. -/
structure Request where
  path : String
  params : Params
  dry_run : PyVal

/-- The message of the `sources` value error,
`"Source must be one or more of {}".format(valid_sources)`. -/
def sourcesValueMsg : String :=
  "Source must be one or more of " ++ pyStr (.list (pyList (valid_sources.map PyVal.str)))

/-- The message of the `layers` value error: the source writes
`"Source must be one or more of ".format(valid_layers)` — a format string
with no placeholder, so the layer list is dropped from the message. -/
def layersValueMsg : String :=
  "Source must be one or more of "

/-- One `if <point>:` block: format and store a lon/lat pair. -/
def stepPoint (kLon kLat : String) (pt : PyVal) (p : Params) :
    Except PyErr Params :=
  if truthy pt then do
    let a ← getItem pt 0
    let sa ← formatFloat a
    let p := dictSet p kLon (.str sa)
    let b ← getItem pt 1
    let sb ← formatFloat b
    pure (dictSet p kLat (.str sb))
  else pure p

/-- One `if <rect scalar>:` block: format and store a single bound. -/
def stepRect (key : String) (x : PyVal) (p : Params) : Except PyErr Params :=
  if truthy x then do
    let s ← formatFloat x
    pure (dictSet p key (.str s))
  else pure p

/-- `if circle_radius:` in `pelias_search`: the raw value is stored. -/
def stepRadiusSearch (cr : PyVal) (p : Params) : Params :=
  if truthy cr then dictSet p "boundary.circle.radius" cr else p

/-- `if circle_radius:` in `pelias_reverse`: `str(circle_radius)` is stored. -/
def stepRadiusReverse (cr : PyVal) (p : Params) : Params :=
  if truthy cr then dictSet p "boundary.circle.radius" (.str (pyStr cr)) else p

/-- The `if sources:` block shared verbatim by `pelias_search` and
`pelias_reverse`. -/
def stepSources (so : PyVal) (p : Params) : Except PyErr Params :=
  if truthy so then
    if !isList so then .error (.typeError "Data source invalid.")
    else if !allInStrList (elems so) valid_sources then
      .error (.valueError sourcesValueMsg)
    else .ok (dictSet p "sources" (.str (commaList (elems so))))
  else .ok p

/-- The `if layers:` block shared verbatim by `pelias_search` and
`pelias_reverse`. -/
def stepLayers (la : PyVal) (p : Params) : Except PyErr Params :=
  if truthy la then
    if !isList la then .error (.typeError "Invalid layer type for geocoding.")
    else if !allInStrList (elems la) valid_layers then
      .error (.valueError layersValueMsg)
    else .ok (dictSet p "layers" (.str (commaList (elems la))))
  else .ok p

/-- One `if <field>:`/`isinstance(<field>, str)` block, as used for
`country` and for each structured-search field. -/
def stepStringField (key msg : String) (v : PyVal) (p : Params) :
    Except PyErr Params :=
  if truthy v then
    if !isStr v then .error (.typeError msg)
    else .ok (dictSet p key v)
  else .ok p

/-- `if size:`: the raw value is stored. -/
def stepSize (si : PyVal) (p : Params) : Params :=
  if truthy si then dictSet p "size" si else p

/-- `pelias_search` from `openrouteservice/geocode.py`.  Note the literal
trailing tab characters inside the three distinct rectangle keys of the
source, and that `rect_max_y` is written under the same
`"boundary.rect.max_lon\t"` key as `rect_max_x`. -/
def pelias_search (text focus_point rect_min_x rect_min_y rect_max_x
    rect_max_y circle_point circle_radius sources layers country size
    dry_run : PyVal) : Except PyErr Request := do
  let p : Params := [("text", text)]
  let p ← stepPoint "focus.point.lon" "focus.point.lat" focus_point p
  let p ← stepRect "boundary.rect.min_lon\t" rect_min_x p
  let p ← stepRect "boundary.rect.min_lat\t" rect_min_y p
  let p ← stepRect "boundary.rect.max_lon\t" rect_max_x p
  let p ← stepRect "boundary.rect.max_lon\t" rect_max_y p
  let p ← stepPoint "boundary.circle.lon" "boundary.circle.lat" circle_point p
  let p := stepRadiusSearch circle_radius p
  let p ← stepSources sources p
  let p ← stepLayers layers p
  let p ← stepStringField "country" "Country must be a string." country p
  let p := stepSize size p
  pure ⟨"/geocode/search", p, dry_run⟩

/-- `pelias_structured` from `openrouteservice/geocode.py`. -/
def pelias_structured (text address neighbourhood borough locality county
    region postalcode country dry_run : PyVal) : Except PyErr Request := do
  let p : Params := [("text", text)]
  let p ← stepStringField "address" "Address must be a string." address p
  let p ← stepStringField "neighbourhood" "Neighbourhood must be a string."
            neighbourhood p
  let p ← stepStringField "borough" "Borough must be a string." borough p
  let p ← stepStringField "locality" "Locality must be a string." locality p
  let p ← stepStringField "county" "County must be a string." county p
  let p ← stepStringField "region" "Region must be a string." region p
  let p ← stepStringField "postalcode" "Postalcode must be a string."
            postalcode p
  let p ← stepStringField "country" "Country must be a string." country p
  pure ⟨"/geocode/search/structured", p, dry_run⟩

/-- `pelias_reverse` from `openrouteservice/geocode.py`. -/
def pelias_reverse (point circle_radius sources layers country size
    dry_run : PyVal) : Except PyErr Request := do
  if !isList point then
    throw (.typeError "Point must be a list/tuple of coordinates.")
  let a ← getItem point 0
  let sa ← formatFloat a
  let p := dictSet [] "point.lon" (.str sa)
  let b ← getItem point 1
  let sb ← formatFloat b
  let p := dictSet p "point.lat" (.str sb)
  let p := stepRadiusReverse circle_radius p
  let p ← stepSources sources p
  let p ← stepLayers layers p
  let p ← stepStringField "country" "Country must be a string." country p
  let p := stepSize size p
  pure ⟨"/geocode/reverse", p, dry_run⟩

/-! ## Dictionary and monad lemmas -/

theorem pfind_dictSet (d : Params) (a k : String) (v : PyVal) :
    pfind (dictSet d a v) k = if a = k then some v else pfind d k := by
  induction d with
  | nil => simp [dictSet, pfind]
  | cons hd tl ih =>
      obtain ⟨b, w⟩ := hd
      by_cases hba : b = a
      · subst hba
        by_cases hbk : b = k <;> simp [dictSet, pfind, hbk]
      · have hab : ¬a = b := fun h => hba h.symm
        by_cases hbk : b = k
        · subst hbk
          simp [dictSet, pfind, hba, hab]
        · simp [dictSet, pfind, hba, hbk, ih]

theorem hasKeyB_dictSet (d : Params) (a k : String) (v : PyVal) :
    hasKeyB (dictSet d a v) k = (decide (k = a) || hasKeyB d k) := by
  by_cases h : a = k
  · subst h; simp [hasKeyB, pfind_dictSet]
  · have h2 : ¬k = a := fun hh => h hh.symm
    simp [hasKeyB, pfind_dictSet, h, h2]

theorem hasKeyB_base (t : PyVal) (k : String) :
    hasKeyB [("text", t)] k = decide (k = "text") := by
  by_cases h : k = "text"
  · subst h; simp [hasKeyB, pfind]
  · have h2 : ¬"text" = k := fun hh => h hh.symm
    simp [hasKeyB, pfind, h, h2]

theorem bind_ok {α β : Type} {x : Except PyErr α} {f : α → Except PyErr β}
    {b : β} (h : x >>= f = .ok b) : ∃ a, x = .ok a ∧ f a = .ok b := by
  cases x with
  | error e => simp [Bind.bind, Except.bind] at h
  | ok a => exact ⟨a, rfl, by simpa [Bind.bind, Except.bind] using h⟩

/-! ## Per-step characterisation lemmas -/

theorem stepPoint_ok_elim {kLon kLat : String} {pt : PyVal} {p p' : Params}
    (h : stepPoint kLon kLat pt p = .ok p') :
    (truthy pt = false ∧ p' = p) ∨
    (truthy pt = true ∧ ∃ a sa b sb, getItem pt 0 = .ok a ∧
      formatFloat a = .ok sa ∧ getItem pt 1 = .ok b ∧ formatFloat b = .ok sb ∧
      p' = dictSet (dictSet p kLon (.str sa)) kLat (.str sb)) := by
  unfold stepPoint at h
  by_cases ht : truthy pt
  · right
    rw [if_pos ht] at h
    obtain ⟨a, ha, h⟩ := bind_ok h
    obtain ⟨sa, hsa, h⟩ := bind_ok h
    obtain ⟨b, hb, h⟩ := bind_ok h
    obtain ⟨sb, hsb, h⟩ := bind_ok h
    exact ⟨ht, a, sa, b, sb, ha, hsa, hb, hsb,
      by simpa [pure, Except.pure] using h.symm⟩
  · left
    rw [if_neg ht] at h
    exact ⟨by simpa using ht, by simpa [pure, Except.pure] using h.symm⟩

theorem stepPoint_hasKey {kLon kLat : String} {pt : PyVal} {p p' : Params}
    (h : stepPoint kLon kLat pt p = .ok p') (k : String) :
    hasKeyB p' k =
      ((decide (k = kLat) || decide (k = kLon)) && truthy pt || hasKeyB p k) := by
  rcases stepPoint_ok_elim h with ⟨ht, rfl⟩ | ⟨ht, a, sa, b, sb, _, _, _, _, rfl⟩
  · simp [ht]
  · simp [ht, hasKeyB_dictSet, Bool.or_assoc]

theorem stepRect_ok_elim {key : String} {x : PyVal} {p p' : Params}
    (h : stepRect key x p = .ok p') :
    (truthy x = false ∧ p' = p) ∨
    (truthy x = true ∧ ∃ s, formatFloat x = .ok s ∧
      p' = dictSet p key (.str s)) := by
  unfold stepRect at h
  by_cases ht : truthy x
  · right
    rw [if_pos ht] at h
    obtain ⟨s, hs, h⟩ := bind_ok h
    exact ⟨ht, s, hs, by simpa [pure, Except.pure] using h.symm⟩
  · left
    rw [if_neg ht] at h
    exact ⟨by simpa using ht, by simpa [pure, Except.pure] using h.symm⟩

theorem stepRect_hasKey {key : String} {x : PyVal} {p p' : Params}
    (h : stepRect key x p = .ok p') (k : String) :
    hasKeyB p' k = (decide (k = key) && truthy x || hasKeyB p k) := by
  rcases stepRect_ok_elim h with ⟨ht, rfl⟩ | ⟨ht, s, _, rfl⟩
  · simp [ht]
  · simp [ht, hasKeyB_dictSet]

theorem stepRadiusSearch_hasKey (cr : PyVal) (p : Params) (k : String) :
    hasKeyB (stepRadiusSearch cr p) k =
      (decide (k = "boundary.circle.radius") && truthy cr || hasKeyB p k) := by
  by_cases ht : truthy cr <;> simp [stepRadiusSearch, ht, hasKeyB_dictSet]

theorem stepRadiusReverse_hasKey (cr : PyVal) (p : Params) (k : String) :
    hasKeyB (stepRadiusReverse cr p) k =
      (decide (k = "boundary.circle.radius") && truthy cr || hasKeyB p k) := by
  by_cases ht : truthy cr <;> simp [stepRadiusReverse, ht, hasKeyB_dictSet]

theorem stepSize_hasKey (si : PyVal) (p : Params) (k : String) :
    hasKeyB (stepSize si p) k =
      (decide (k = "size") && truthy si || hasKeyB p k) := by
  by_cases ht : truthy si <;> simp [stepSize, ht, hasKeyB_dictSet]

theorem stepSources_ok_elim {so : PyVal} {p p' : Params}
    (h : stepSources so p = .ok p') :
    (truthy so = false ∧ p' = p) ∨
    (truthy so = true ∧ isList so = true ∧
      allInStrList (elems so) valid_sources = true ∧
      p' = dictSet p "sources" (.str (commaList (elems so)))) := by
  unfold stepSources at h
  by_cases ht : truthy so
  · right
    rw [if_pos ht] at h
    by_cases hl : isList so
    · by_cases ha : allInStrList (elems so) valid_sources
      · refine ⟨ht, hl, ha, ?_⟩
        simp [hl, ha] at h
        exact h.symm
      · simp [hl, ha] at h
    · simp [hl] at h
  · left
    rw [if_neg ht] at h
    exact ⟨by simpa using ht, by simpa using h.symm⟩

theorem stepSources_hasKey {so : PyVal} {p p' : Params}
    (h : stepSources so p = .ok p') (k : String) :
    hasKeyB p' k = (decide (k = "sources") && truthy so || hasKeyB p k) := by
  rcases stepSources_ok_elim h with ⟨ht, rfl⟩ | ⟨ht, _, _, rfl⟩
  · simp [ht]
  · simp [ht, hasKeyB_dictSet]

theorem stepSources_err_type {so : PyVal} (p : Params)
    (ht : truthy so = true) (hl : isList so = false) :
    stepSources so p = .error (.typeError "Data source invalid.") := by
  simp [stepSources, ht, hl]

theorem stepSources_err_val {so : PyVal} (p : Params)
    (ht : truthy so = true) (hl : isList so = true)
    (ha : allInStrList (elems so) valid_sources = false) :
    stepSources so p = .error (.valueError sourcesValueMsg) := by
  simp [stepSources, ht, hl, ha]

theorem stepLayers_ok_elim {la : PyVal} {p p' : Params}
    (h : stepLayers la p = .ok p') :
    (truthy la = false ∧ p' = p) ∨
    (truthy la = true ∧ isList la = true ∧
      allInStrList (elems la) valid_layers = true ∧
      p' = dictSet p "layers" (.str (commaList (elems la)))) := by
  unfold stepLayers at h
  by_cases ht : truthy la
  · right
    rw [if_pos ht] at h
    by_cases hl : isList la
    · by_cases ha : allInStrList (elems la) valid_layers
      · refine ⟨ht, hl, ha, ?_⟩
        simp [hl, ha] at h
        exact h.symm
      · simp [hl, ha] at h
    · simp [hl] at h
  · left
    rw [if_neg ht] at h
    exact ⟨by simpa using ht, by simpa using h.symm⟩

theorem stepLayers_hasKey {la : PyVal} {p p' : Params}
    (h : stepLayers la p = .ok p') (k : String) :
    hasKeyB p' k = (decide (k = "layers") && truthy la || hasKeyB p k) := by
  rcases stepLayers_ok_elim h with ⟨ht, rfl⟩ | ⟨ht, _, _, rfl⟩
  · simp [ht]
  · simp [ht, hasKeyB_dictSet]

theorem stepLayers_err_type {la : PyVal} (p : Params)
    (ht : truthy la = true) (hl : isList la = false) :
    stepLayers la p = .error (.typeError "Invalid layer type for geocoding.") := by
  simp [stepLayers, ht, hl]

theorem stepLayers_err_val {la : PyVal} (p : Params)
    (ht : truthy la = true) (hl : isList la = true)
    (ha : allInStrList (elems la) valid_layers = false) :
    stepLayers la p = .error (.valueError layersValueMsg) := by
  simp [stepLayers, ht, hl, ha]

theorem stepStringField_ok_elim {key msg : String} {v : PyVal} {p p' : Params}
    (h : stepStringField key msg v p = .ok p') :
    (truthy v = false ∧ p' = p) ∨
    (truthy v = true ∧ isStr v = true ∧ p' = dictSet p key v) := by
  unfold stepStringField at h
  by_cases ht : truthy v
  · right
    rw [if_pos ht] at h
    by_cases hs : isStr v
    · refine ⟨ht, hs, ?_⟩
      simp [hs] at h
      exact h.symm
    · simp [hs] at h
  · left
    rw [if_neg ht] at h
    exact ⟨by simpa using ht, by simpa using h.symm⟩

theorem stepStringField_hasKey {key msg : String} {v : PyVal} {p p' : Params}
    (h : stepStringField key msg v p = .ok p') (k : String) :
    hasKeyB p' k = (decide (k = key) && truthy v || hasKeyB p k) := by
  rcases stepStringField_ok_elim h with ⟨ht, rfl⟩ | ⟨ht, _, rfl⟩
  · simp [ht]
  · simp [ht, hasKeyB_dictSet]

theorem stepStringField_err {key msg : String} {v : PyVal} (p : Params)
    (ht : truthy v = true) (hs : isStr v = false) :
    stepStringField key msg v p = .error (.typeError msg) := by
  simp [stepStringField, ht, hs]

/-! ## Pipeline decomposition lemmas -/

theorem search_ok_elim {t fp rx ry RX RY cp cr so la co si dr : PyVal}
    {req : Request}
    (h : pelias_search t fp rx ry RX RY cp cr so la co si dr = .ok req) :
    ∃ p1 p2 p3 p4 p5 p6 p8 p9 p10,
      stepPoint "focus.point.lon" "focus.point.lat" fp [("text", t)] = .ok p1 ∧
      stepRect "boundary.rect.min_lon\t" rx p1 = .ok p2 ∧
      stepRect "boundary.rect.min_lat\t" ry p2 = .ok p3 ∧
      stepRect "boundary.rect.max_lon\t" RX p3 = .ok p4 ∧
      stepRect "boundary.rect.max_lon\t" RY p4 = .ok p5 ∧
      stepPoint "boundary.circle.lon" "boundary.circle.lat" cp p5 = .ok p6 ∧
      stepSources so (stepRadiusSearch cr p6) = .ok p8 ∧
      stepLayers la p8 = .ok p9 ∧
      stepStringField "country" "Country must be a string." co p9 = .ok p10 ∧
      req = ⟨"/geocode/search", stepSize si p10, dr⟩ := by
  unfold pelias_search at h
  obtain ⟨p1, h1, h⟩ := bind_ok h
  obtain ⟨p2, h2, h⟩ := bind_ok h
  obtain ⟨p3, h3, h⟩ := bind_ok h
  obtain ⟨p4, h4, h⟩ := bind_ok h
  obtain ⟨p5, h5, h⟩ := bind_ok h
  obtain ⟨p6, h6, h⟩ := bind_ok h
  obtain ⟨p8, h8, h⟩ := bind_ok h
  obtain ⟨p9, h9, h⟩ := bind_ok h
  obtain ⟨p10, h10, h⟩ := bind_ok h
  exact ⟨p1, p2, p3, p4, p5, p6, p8, p9, p10, h1, h2, h3, h4, h5, h6, h8, h9,
    h10, by simpa [pure, Except.pure] using h.symm⟩

theorem structured_ok_elim {t f1 f2 f3 f4 f5 f6 f7 f8 dr : PyVal}
    {req : Request}
    (h : pelias_structured t f1 f2 f3 f4 f5 f6 f7 f8 dr = .ok req) :
    ∃ p1 p2 p3 p4 p5 p6 p7 p8,
      stepStringField "address" "Address must be a string." f1
        [("text", t)] = .ok p1 ∧
      stepStringField "neighbourhood" "Neighbourhood must be a string." f2
        p1 = .ok p2 ∧
      stepStringField "borough" "Borough must be a string." f3 p2 = .ok p3 ∧
      stepStringField "locality" "Locality must be a string." f4 p3 = .ok p4 ∧
      stepStringField "county" "County must be a string." f5 p4 = .ok p5 ∧
      stepStringField "region" "Region must be a string." f6 p5 = .ok p6 ∧
      stepStringField "postalcode" "Postalcode must be a string." f7
        p6 = .ok p7 ∧
      stepStringField "country" "Country must be a string." f8 p7 = .ok p8 ∧
      req = ⟨"/geocode/search/structured", p8, dr⟩ := by
  unfold pelias_structured at h
  obtain ⟨p1, h1, h⟩ := bind_ok h
  obtain ⟨p2, h2, h⟩ := bind_ok h
  obtain ⟨p3, h3, h⟩ := bind_ok h
  obtain ⟨p4, h4, h⟩ := bind_ok h
  obtain ⟨p5, h5, h⟩ := bind_ok h
  obtain ⟨p6, h6, h⟩ := bind_ok h
  obtain ⟨p7, h7, h⟩ := bind_ok h
  obtain ⟨p8, h8, h⟩ := bind_ok h
  exact ⟨p1, p2, p3, p4, p5, p6, p7, p8, h1, h2, h3, h4, h5, h6, h7, h8,
    by simpa [pure, Except.pure] using h.symm⟩

theorem reverse_ok_elim {pt cr so la co si dr : PyVal} {req : Request}
    (h : pelias_reverse pt cr so la co si dr = .ok req) :
    ∃ a sa b sb p8 p9 p10,
      isList pt = true ∧ getItem pt 0 = .ok a ∧ formatFloat a = .ok sa ∧
      getItem pt 1 = .ok b ∧ formatFloat b = .ok sb ∧
      stepSources so (stepRadiusReverse cr
        (dictSet (dictSet [] "point.lon" (.str sa)) "point.lat" (.str sb)))
        = .ok p8 ∧
      stepLayers la p8 = .ok p9 ∧
      stepStringField "country" "Country must be a string." co p9 = .ok p10 ∧
      req = ⟨"/geocode/reverse", stepSize si p10, dr⟩ := by
  unfold pelias_reverse at h
  by_cases hl : isList pt
  · rw [if_neg (by simp [hl])] at h
    obtain ⟨u, hu, h⟩ := bind_ok h
    obtain ⟨a, ha, h⟩ := bind_ok h
    obtain ⟨sa, hsa, h⟩ := bind_ok h
    obtain ⟨b, hb, h⟩ := bind_ok h
    obtain ⟨sb, hsb, h⟩ := bind_ok h
    obtain ⟨p8, h8, h⟩ := bind_ok h
    obtain ⟨p9, h9, h⟩ := bind_ok h
    obtain ⟨p10, h10, h⟩ := bind_ok h
    exact ⟨a, sa, b, sb, p8, p9, p10, hl, ha, hsa, hb, hsb, h8, h9, h10,
      by simpa [pure, Except.pure] using h.symm⟩
  · rw [if_pos (by simpa using hl)] at h
    simp [throw, throwThe, MonadExceptOf.throw, Bind.bind, Except.bind] at h

/-! ## Key-set characterisation -/

/-- Which keys the free-text-search mapping binds, as a function of the
truthiness of the inputs: required `text` always; each optional key
exactly when its input is truthy; `rect_max_x` and `rect_max_y` share
the single (tab-suffixed) max-longitude key. -/
def searchKeySpec (fp rx ry RX RY cp cr so la co si : PyVal)
    (k : String) : Bool :=
  decide (k = "size") && truthy si ||
  (decide (k = "country") && truthy co ||
  (decide (k = "layers") && truthy la ||
  (decide (k = "sources") && truthy so ||
  (decide (k = "boundary.circle.radius") && truthy cr ||
  ((decide (k = "boundary.circle.lat") || decide (k = "boundary.circle.lon"))
      && truthy cp ||
  (decide (k = "boundary.rect.max_lon\t") && truthy RY ||
  (decide (k = "boundary.rect.max_lon\t") && truthy RX ||
  (decide (k = "boundary.rect.min_lat\t") && truthy ry ||
  (decide (k = "boundary.rect.min_lon\t") && truthy rx ||
  ((decide (k = "focus.point.lat") || decide (k = "focus.point.lon"))
      && truthy fp ||
  decide (k = "text")))))))))))

/-- Which keys the structured-search mapping binds. -/
def structuredKeySpec (f1 f2 f3 f4 f5 f6 f7 f8 : PyVal) (k : String) : Bool :=
  decide (k = "country") && truthy f8 ||
  (decide (k = "postalcode") && truthy f7 ||
  (decide (k = "region") && truthy f6 ||
  (decide (k = "county") && truthy f5 ||
  (decide (k = "locality") && truthy f4 ||
  (decide (k = "borough") && truthy f3 ||
  (decide (k = "neighbourhood") && truthy f2 ||
  (decide (k = "address") && truthy f1 ||
  decide (k = "text"))))))))

/-- Which keys the reverse-geocode mapping binds: the two point keys
always, each optional key exactly when its input is truthy. -/
def reverseKeySpec (cr so la co si : PyVal) (k : String) : Bool :=
  decide (k = "size") && truthy si ||
  (decide (k = "country") && truthy co ||
  (decide (k = "layers") && truthy la ||
  (decide (k = "sources") && truthy so ||
  (decide (k = "boundary.circle.radius") && truthy cr ||
  (decide (k = "point.lat") || decide (k = "point.lon"))))))

theorem search_ok_hasKey {t fp rx ry RX RY cp cr so la co si dr : PyVal}
    {req : Request}
    (h : pelias_search t fp rx ry RX RY cp cr so la co si dr = .ok req)
    (k : String) :
    hasKeyB req.params k = searchKeySpec fp rx ry RX RY cp cr so la co si k := by
  obtain ⟨p1, p2, p3, p4, p5, p6, p8, p9, p10, h1, h2, h3, h4, h5, h6, h8, h9,
    h10, hreq⟩ := search_ok_elim h
  subst hreq
  show hasKeyB (stepSize si p10) k = _
  rw [stepSize_hasKey, stepStringField_hasKey h10, stepLayers_hasKey h9,
    stepSources_hasKey h8, stepRadiusSearch_hasKey, stepPoint_hasKey h6,
    stepRect_hasKey h5, stepRect_hasKey h4, stepRect_hasKey h3,
    stepRect_hasKey h2, stepPoint_hasKey h1, hasKeyB_base]
  rfl

theorem structured_ok_hasKey {t f1 f2 f3 f4 f5 f6 f7 f8 dr : PyVal}
    {req : Request}
    (h : pelias_structured t f1 f2 f3 f4 f5 f6 f7 f8 dr = .ok req)
    (k : String) :
    hasKeyB req.params k = structuredKeySpec f1 f2 f3 f4 f5 f6 f7 f8 k := by
  obtain ⟨p1, p2, p3, p4, p5, p6, p7, p8, h1, h2, h3, h4, h5, h6, h7, h8,
    hreq⟩ := structured_ok_elim h
  subst hreq
  show hasKeyB p8 k = _
  rw [stepStringField_hasKey h8, stepStringField_hasKey h7,
    stepStringField_hasKey h6, stepStringField_hasKey h5,
    stepStringField_hasKey h4, stepStringField_hasKey h3,
    stepStringField_hasKey h2, stepStringField_hasKey h1, hasKeyB_base]
  rfl

theorem reverse_ok_hasKey {pt cr so la co si dr : PyVal} {req : Request}
    (h : pelias_reverse pt cr so la co si dr = .ok req) (k : String) :
    hasKeyB req.params k = reverseKeySpec cr so la co si k := by
  obtain ⟨a, sa, b, sb, p8, p9, p10, hl, ha, hsa, hb, hsb, h8, h9, h10,
    hreq⟩ := reverse_ok_elim h
  subst hreq
  show hasKeyB (stepSize si p10) k = _
  rw [stepSize_hasKey, stepStringField_hasKey h10, stepLayers_hasKey h9,
    stepSources_hasKey h8, stepRadiusReverse_hasKey, hasKeyB_dictSet,
    hasKeyB_dictSet]
  simp [reverseKeySpec, hasKeyB, pfind]

/-! ## Value-tracking lemmas -/

theorem stepSize_pfind_ne (si : PyVal) (p : Params) {k : String}
    (hk : k ≠ "size") : pfind (stepSize si p) k = pfind p k := by
  have hk2 : ¬"size" = k := fun hh => hk hh.symm
  by_cases ht : truthy si <;> simp [stepSize, ht, pfind_dictSet, hk2]

theorem stepStringField_pfind_ne {key msg : String} {v : PyVal} {p p' : Params}
    (h : stepStringField key msg v p = .ok p') {k : String} (hk : k ≠ key) :
    pfind p' k = pfind p k := by
  have hk2 : ¬key = k := fun hh => hk hh.symm
  rcases stepStringField_ok_elim h with ⟨_, rfl⟩ | ⟨_, _, rfl⟩
  · rfl
  · simp [pfind_dictSet, hk2]

theorem stepLayers_pfind_ne {la : PyVal} {p p' : Params}
    (h : stepLayers la p = .ok p') {k : String} (hk : k ≠ "layers") :
    pfind p' k = pfind p k := by
  have hk2 : ¬"layers" = k := fun hh => hk hh.symm
  rcases stepLayers_ok_elim h with ⟨_, rfl⟩ | ⟨_, _, _, rfl⟩
  · rfl
  · simp [pfind_dictSet, hk2]

theorem stepSources_pfind_ne {so : PyVal} {p p' : Params}
    (h : stepSources so p = .ok p') {k : String} (hk : k ≠ "sources") :
    pfind p' k = pfind p k := by
  have hk2 : ¬"sources" = k := fun hh => hk hh.symm
  rcases stepSources_ok_elim h with ⟨_, rfl⟩ | ⟨_, _, _, rfl⟩
  · rfl
  · simp [pfind_dictSet, hk2]

theorem stepSources_pfind_self {so : PyVal} {p p' : Params}
    (h : stepSources so p = .ok p') (ht : truthy so = true) :
    pfind p' "sources" = some (.str (commaList (elems so))) := by
  rcases stepSources_ok_elim h with ⟨hf, rfl⟩ | ⟨_, _, _, rfl⟩
  · rw [ht] at hf; cases hf
  · simp [pfind_dictSet]

theorem stepRadiusSearch_pfind_ne (cr : PyVal) (p : Params) {k : String}
    (hk : k ≠ "boundary.circle.radius") :
    pfind (stepRadiusSearch cr p) k = pfind p k := by
  have hk2 : ¬"boundary.circle.radius" = k := fun hh => hk hh.symm
  by_cases ht : truthy cr <;> simp [stepRadiusSearch, ht, pfind_dictSet, hk2]

theorem stepRadiusSearch_pfind_self (cr : PyVal) (p : Params)
    (ht : truthy cr = true) :
    pfind (stepRadiusSearch cr p) "boundary.circle.radius" = some cr := by
  simp [stepRadiusSearch, ht, pfind_dictSet]

theorem stepRadiusReverse_pfind_self (cr : PyVal) (p : Params)
    (ht : truthy cr = true) :
    pfind (stepRadiusReverse cr p) "boundary.circle.radius"
      = some (.str (pyStr cr)) := by
  simp [stepRadiusReverse, ht, pfind_dictSet]

theorem stepPoint_pfind_ne {kLon kLat : String} {pt : PyVal} {p p' : Params}
    (h : stepPoint kLon kLat pt p = .ok p') {k : String}
    (h1 : k ≠ kLon) (h2 : k ≠ kLat) : pfind p' k = pfind p k := by
  have h1s : ¬kLon = k := fun hh => h1 hh.symm
  have h2s : ¬kLat = k := fun hh => h2 hh.symm
  rcases stepPoint_ok_elim h with ⟨_, rfl⟩ | ⟨_, a, sa, b, sb, _, _, _, _, rfl⟩
  · rfl
  · simp [pfind_dictSet, h1s, h2s]

theorem stepRect_pfind_ne {key : String} {x : PyVal} {p p' : Params}
    (h : stepRect key x p = .ok p') {k : String} (hk : k ≠ key) :
    pfind p' k = pfind p k := by
  have hk2 : ¬key = k := fun hh => hk hh.symm
  rcases stepRect_ok_elim h with ⟨_, rfl⟩ | ⟨_, s, _, rfl⟩
  · rfl
  · simp [pfind_dictSet, hk2]

theorem stepRect_pfind_self {key : String} {x : PyVal} {p p' : Params}
    {s : String} (h : stepRect key x p = .ok p') (ht : truthy x = true)
    (hf : formatFloat x = .ok s) : pfind p' key = some (.str s) := by
  rcases stepRect_ok_elim h with ⟨hfalse, rfl⟩ | ⟨_, s', hf', rfl⟩
  · rw [ht] at hfalse; cases hfalse
  · rw [hf] at hf'
    cases hf'
    simp [pfind_dictSet]

/-! ## Targeted key walks -/

theorem search_ok_pfind_text {t fp rx ry RX RY cp cr so la co si dr : PyVal}
    {req : Request}
    (h : pelias_search t fp rx ry RX RY cp cr so la co si dr = .ok req) :
    pfind req.params "text" = some t := by
  obtain ⟨p1, p2, p3, p4, p5, p6, p8, p9, p10, h1, h2, h3, h4, h5, h6, h8, h9,
    h10, hreq⟩ := search_ok_elim h
  subst hreq
  show pfind (stepSize si p10) "text" = some t
  rw [stepSize_pfind_ne _ _ (by decide), stepStringField_pfind_ne h10 (by decide),
    stepLayers_pfind_ne h9 (by decide), stepSources_pfind_ne h8 (by decide),
    stepRadiusSearch_pfind_ne _ _ (by decide),
    stepPoint_pfind_ne h6 (by decide) (by decide),
    stepRect_pfind_ne h5 (by decide), stepRect_pfind_ne h4 (by decide),
    stepRect_pfind_ne h3 (by decide), stepRect_pfind_ne h2 (by decide),
    stepPoint_pfind_ne h1 (by decide) (by decide)]
  simp [pfind]

theorem structured_ok_pfind_text {t f1 f2 f3 f4 f5 f6 f7 f8 dr : PyVal}
    {req : Request}
    (h : pelias_structured t f1 f2 f3 f4 f5 f6 f7 f8 dr = .ok req) :
    pfind req.params "text" = some t := by
  obtain ⟨p1, p2, p3, p4, p5, p6, p7, p8, h1, h2, h3, h4, h5, h6, h7, h8,
    hreq⟩ := structured_ok_elim h
  subst hreq
  show pfind p8 "text" = some t
  rw [stepStringField_pfind_ne h8 (by decide), stepStringField_pfind_ne h7 (by decide),
    stepStringField_pfind_ne h6 (by decide), stepStringField_pfind_ne h5 (by decide),
    stepStringField_pfind_ne h4 (by decide), stepStringField_pfind_ne h3 (by decide),
    stepStringField_pfind_ne h2 (by decide), stepStringField_pfind_ne h1 (by decide)]
  simp [pfind]

/-! ## Claim theorems -/

/-- C1, counterexample: the claim says a falsy `text` produces no key at
all, but `pelias_search` with the falsy text `""` sends the mapping
`{"text": ""}` — the `text` key is present with an empty value. -/
theorem C1_counterexample :
    truthy (.str "") = false ∧
    pelias_search (.str "") .none .none .none .none .none .none .none .none
      .none .none .none .none
      = .ok ⟨"/geocode/search", [("text", PyVal.str "")], .none⟩ :=
  ⟨rfl, rfl⟩

/-- C1 (amended): for each of the three operations, every *optional*
key appears in the mapping exactly when its input is truthy (with
`rect_max_x`/`rect_max_y` sharing one key) and no other optional key
ever appears; but the required inputs are exempt from the invariant:
`text` is always bound (even when falsy), and reverse geocoding always
binds `point.lon`/`point.lat`.  The exact key sets are `searchKeySpec`,
`structuredKeySpec` and `reverseKeySpec`. -/
theorem C1_amended :
    (∀ t fp rx ry RX RY cp cr so la co si dr req,
      pelias_search t fp rx ry RX RY cp cr so la co si dr = .ok req →
      ∀ k, hasKeyB req.params k
        = searchKeySpec fp rx ry RX RY cp cr so la co si k) ∧
    (∀ t f1 f2 f3 f4 f5 f6 f7 f8 dr req,
      pelias_structured t f1 f2 f3 f4 f5 f6 f7 f8 dr = .ok req →
      ∀ k, hasKeyB req.params k = structuredKeySpec f1 f2 f3 f4 f5 f6 f7 f8 k) ∧
    (∀ pt cr so la co si dr req,
      pelias_reverse pt cr so la co si dr = .ok req →
      ∀ k, hasKeyB req.params k = reverseKeySpec cr so la co si k) :=
  ⟨fun _ _ _ _ _ _ _ _ _ _ _ _ _ _ h => search_ok_hasKey h,
   fun _ _ _ _ _ _ _ _ _ _ _ h => structured_ok_hasKey h,
   fun _ _ _ _ _ _ _ _ h => reverse_ok_hasKey h⟩

/-- C1 witness: a concrete successful search call, checked at the
`size` key (supplied and truthy, hence present). -/
theorem C1_amended_witness :
    hasKeyB (Request.mk "/geocode/search"
        [("text", PyVal.str "x"), ("size", PyVal.int 5)] PyVal.none).params
      "size"
      = searchKeySpec PyVal.none PyVal.none PyVal.none PyVal.none PyVal.none
          PyVal.none PyVal.none PyVal.none PyVal.none PyVal.none
          (PyVal.int 5) "size" :=
  C1_amended.1 (PyVal.str "x") PyVal.none PyVal.none PyVal.none PyVal.none
    PyVal.none PyVal.none PyVal.none PyVal.none PyVal.none PyVal.none
    (PyVal.int 5) PyVal.none _ rfl "size"

/-- C5: the code is at odds with the claim for the `layers` value error:
`pelias_search(text="x", layers=["foo"])` raises
`ValueError("Source must be one or more of ")` — the message neither
names `layers` (it says "Source") nor contains the allowed layer set,
because the source formats with
`"Source must be one or more of ".format(valid_layers)`, a format string
with no `{}` placeholder. -/
theorem C5_layers_message_bug :
    pelias_search (.str "x") .none .none .none .none .none .none .none .none
      (.list (pyList [.str "foo"])) .none .none .none
      = .error (.valueError "Source must be one or more of ") ∧
    ("foo" ∈ valid_layers) = False :=
  ⟨rfl, by simp [valid_layers]⟩

/-- C7: with every optional parameter omitted, each operation sends only
its required key(s) to its fixed endpoint path: `text` to
`/geocode/search` and `/geocode/search/structured`, the float-formatted
`point.lon`/`point.lat` to `/geocode/reverse`; in particular
`point=(8.34, 48.23)` sends exactly
`{"point.lon": "8.34", "point.lat": "48.23"}`. -/
theorem C7_required_keys_and_paths :
    (∀ t, pelias_search t .none .none .none .none .none .none .none .none
        .none .none .none .none
      = .ok ⟨"/geocode/search", [("text", t)], .none⟩) ∧
    (∀ t, pelias_structured t .none .none .none .none .none .none .none
        .none .none
      = .ok ⟨"/geocode/search/structured", [("text", t)], .none⟩) ∧
    (∀ m1 e1 m2 e2, pelias_reverse
        (.tuple (pyList [.float m1 e1, .float m2 e2])) .none .none .none
        .none .none .none
      = .ok ⟨"/geocode/reverse",
          [("point.lon", .str (decRender m1 e1)),
           ("point.lat", .str (decRender m2 e2))], .none⟩) ∧
    pelias_reverse (.tuple (pyList [.float 834 2, .float 4823 2])) .none
        .none .none .none .none .none
      = .ok ⟨"/geocode/reverse",
          [("point.lon", PyVal.str "8.34"), ("point.lat", PyVal.str "48.23")],
          .none⟩ :=
  ⟨fun _ => rfl, fun _ => rfl, fun _ _ _ _ => rfl, rfl⟩

/-- C9: neither search operation validates `text` in any way: any value
of any type is accepted and placed unmodified under the `text` key, and
every successful call carries it through unchanged. -/
theorem C9_text_never_validated :
    (∀ t, pelias_search t .none .none .none .none .none .none .none .none
        .none .none .none .none
      = .ok ⟨"/geocode/search", [("text", t)], .none⟩) ∧
    (∀ t, pelias_structured t .none .none .none .none .none .none .none
        .none .none
      = .ok ⟨"/geocode/search/structured", [("text", t)], .none⟩) ∧
    (∀ t fp rx ry RX RY cp cr so la co si dr req,
      pelias_search t fp rx ry RX RY cp cr so la co si dr = .ok req →
      pfind req.params "text" = some t) ∧
    (∀ t f1 f2 f3 f4 f5 f6 f7 f8 dr req,
      pelias_structured t f1 f2 f3 f4 f5 f6 f7 f8 dr = .ok req →
      pfind req.params "text" = some t) :=
  ⟨fun _ => rfl, fun _ => rfl,
   fun _ _ _ _ _ _ _ _ _ _ _ _ _ _ h => search_ok_pfind_text h,
   fun _ _ _ _ _ _ _ _ _ _ _ h => structured_ok_pfind_text h⟩

/-- C9 witness: a structured call whose `text` is an integer (a
non-string) still succeeds and carries the integer through. -/
theorem C9_witness :
    pfind (Request.mk "/geocode/search/structured"
        [("text", PyVal.int 7)] PyVal.none).params "text"
      = some (PyVal.int 7) :=
  C9_text_never_validated.2.2.2 (PyVal.int 7) PyVal.none PyVal.none PyVal.none
    PyVal.none PyVal.none PyVal.none PyVal.none PyVal.none PyVal.none _ rfl

/-- C2: a truthy `rect_max_y` is written into the very same wire key as
`rect_max_x` (the tab-suffixed max-longitude key); with both supplied
the mapping holds a single max bound — the float-formatted `rect_max_y`
value — and no max-latitude key ever appears. -/
theorem C2_rect_max_collision
    {t fp rx ry RX RY cp cr so la co si dr : PyVal} {req : Request}
    {sy : String} (_hx : truthy RX = true) (hy : truthy RY = true)
    (hf : formatFloat RY = .ok sy)
    (h : pelias_search t fp rx ry RX RY cp cr so la co si dr = .ok req) :
    pfind req.params "boundary.rect.max_lon\t" = some (.str sy) ∧
    hasKeyB req.params "boundary.rect.max_lat" = false ∧
    hasKeyB req.params "boundary.rect.max_lat\t" = false := by
  refine ⟨?_, ?_, ?_⟩
  · obtain ⟨p1, p2, p3, p4, p5, p6, p8, p9, p10, h1, h2, h3, h4, h5, h6, h8,
      h9, h10, hreq⟩ := search_ok_elim h
    subst hreq
    show pfind (stepSize si p10) "boundary.rect.max_lon\t" = some (.str sy)
    rw [stepSize_pfind_ne _ _ (by decide),
      stepStringField_pfind_ne h10 (by decide),
      stepLayers_pfind_ne h9 (by decide), stepSources_pfind_ne h8 (by decide),
      stepRadiusSearch_pfind_ne _ _ (by decide),
      stepPoint_pfind_ne h6 (by decide) (by decide)]
    exact stepRect_pfind_self h5 hy hf
  · simpa [searchKeySpec] using search_ok_hasKey h "boundary.rect.max_lat"
  · simpa [searchKeySpec] using search_ok_hasKey h "boundary.rect.max_lat\t"

/-- C2 witness: both max bounds supplied concretely; the single max key
holds `rect_max_y`'s formatted value. -/
theorem C2_witness :
    truthy (.float 1 0) = true ∧ truthy (.float 2 0) = true ∧
    formatFloat (.float 2 0) = .ok "2" ∧
    pfind (Request.mk "/geocode/search"
        [("text", PyVal.str "x"), ("boundary.rect.max_lon\t", PyVal.str "2")]
        PyVal.none).params "boundary.rect.max_lon\t"
      = some (PyVal.str "2") :=
  ⟨rfl, rfl, rfl,
    (@C2_rect_max_collision (PyVal.str "x") PyVal.none PyVal.none PyVal.none
      (PyVal.float 1 0) (PyVal.float 2 0) PyVal.none PyVal.none PyVal.none
      PyVal.none PyVal.none PyVal.none PyVal.none
      (Request.mk "/geocode/search"
        [("text", PyVal.str "x"), ("boundary.rect.max_lon\t", PyVal.str "2")]
        PyVal.none) "2" rfl rfl rfl rfl).1⟩

/-- C3, counterexample: supplying `rect_min_x` does not produce the
claimed exact key `boundary.rect.min_lon` — the key the code writes has
a trailing tab character, and the claimed key is absent. -/
theorem C3_counterexample :
    pelias_search (.str "x") .none (.float 1 0) .none .none .none .none .none
      .none .none .none .none .none
      = .ok ⟨"/geocode/search",
          [("text", PyVal.str "x"), ("boundary.rect.min_lon\t", PyVal.str "1")],
          .none⟩ ∧
    pfind [("text", PyVal.str "x"), ("boundary.rect.min_lon\t", PyVal.str "1")]
      "boundary.rect.min_lon" = Option.none :=
  ⟨rfl, rfl⟩

/-- C3 (amended): the three wire keys for `rect_min_x`, `rect_min_y`
and `rect_max_x` are `boundary.rect.min_lon`, `boundary.rect.min_lat`
and `boundary.rect.max_lon` each followed by one trailing tab
character, mapped to the float-formatted input; for `rect_max_x` the
value survives only when `rect_max_y` is not also supplied (else it is
overwritten, see C2). -/
theorem C3_amended_tab_keys
    {t fp rx ry RX RY cp cr so la co si dr : PyVal} {req : Request}
    (h : pelias_search t fp rx ry RX RY cp cr so la co si dr = .ok req) :
    (∀ sx, truthy rx = true → formatFloat rx = .ok sx →
      pfind req.params "boundary.rect.min_lon\t" = some (.str sx)) ∧
    (∀ sy, truthy ry = true → formatFloat ry = .ok sy →
      pfind req.params "boundary.rect.min_lat\t" = some (.str sy)) ∧
    (∀ sX, truthy RX = true → truthy RY = false → formatFloat RX = .ok sX →
      pfind req.params "boundary.rect.max_lon\t" = some (.str sX)) := by
  obtain ⟨p1, p2, p3, p4, p5, p6, p8, p9, p10, h1, h2, h3, h4, h5, h6, h8,
    h9, h10, hreq⟩ := search_ok_elim h
  subst hreq
  refine ⟨?_, ?_, ?_⟩
  · intro sx ht hf
    show pfind (stepSize si p10) "boundary.rect.min_lon\t" = some (.str sx)
    rw [stepSize_pfind_ne _ _ (by decide),
      stepStringField_pfind_ne h10 (by decide),
      stepLayers_pfind_ne h9 (by decide), stepSources_pfind_ne h8 (by decide),
      stepRadiusSearch_pfind_ne _ _ (by decide),
      stepPoint_pfind_ne h6 (by decide) (by decide),
      stepRect_pfind_ne h5 (by decide), stepRect_pfind_ne h4 (by decide),
      stepRect_pfind_ne h3 (by decide)]
    exact stepRect_pfind_self h2 ht hf
  · intro sy ht hf
    show pfind (stepSize si p10) "boundary.rect.min_lat\t" = some (.str sy)
    rw [stepSize_pfind_ne _ _ (by decide),
      stepStringField_pfind_ne h10 (by decide),
      stepLayers_pfind_ne h9 (by decide), stepSources_pfind_ne h8 (by decide),
      stepRadiusSearch_pfind_ne _ _ (by decide),
      stepPoint_pfind_ne h6 (by decide) (by decide),
      stepRect_pfind_ne h5 (by decide), stepRect_pfind_ne h4 (by decide)]
    exact stepRect_pfind_self h3 ht hf
  · intro sX htX htY hf
    show pfind (stepSize si p10) "boundary.rect.max_lon\t" = some (.str sX)
    rw [stepSize_pfind_ne _ _ (by decide),
      stepStringField_pfind_ne h10 (by decide),
      stepLayers_pfind_ne h9 (by decide), stepSources_pfind_ne h8 (by decide),
      stepRadiusSearch_pfind_ne _ _ (by decide),
      stepPoint_pfind_ne h6 (by decide) (by decide)]
    rcases stepRect_ok_elim h5 with ⟨_, rfl⟩ | ⟨htr, _, _, _⟩
    · exact stepRect_pfind_self h4 htX hf
    · rw [htY] at htr; cases htr

/-- C3 witness: concrete call with `rect_min_x = 1.0`; the tab-suffixed
key holds `"1"`. -/
theorem C3_witness :
    pfind (Request.mk "/geocode/search"
        [("text", PyVal.str "x"), ("boundary.rect.min_lon\t", PyVal.str "1")]
        PyVal.none).params "boundary.rect.min_lon\t"
      = some (PyVal.str "1") :=
  (@C3_amended_tab_keys (PyVal.str "x") PyVal.none (PyVal.float 1 0)
    PyVal.none PyVal.none PyVal.none PyVal.none PyVal.none PyVal.none
    PyVal.none PyVal.none PyVal.none PyVal.none
    (Request.mk "/geocode/search"
      [("text", PyVal.str "x"), ("boundary.rect.min_lon\t", PyVal.str "1")]
      PyVal.none) rfl).1 "1" rfl rfl

/-- C10: the two operations accepting `circle_radius` treat it
differently — `pelias_search` stores the raw value unmodified, while
`pelias_reverse` stores its Python string form `str(circle_radius)`. -/
theorem C10_circle_radius_raw_vs_str :
    (∀ t fp rx ry RX RY cp cr so la co si dr req,
      truthy cr = true →
      pelias_search t fp rx ry RX RY cp cr so la co si dr = .ok req →
      pfind req.params "boundary.circle.radius" = some cr) ∧
    (∀ pt cr so la co si dr req,
      truthy cr = true →
      pelias_reverse pt cr so la co si dr = .ok req →
      pfind req.params "boundary.circle.radius" = some (.str (pyStr cr))) := by
  constructor
  · intro t fp rx ry RX RY cp cr so la co si dr req ht h
    obtain ⟨p1, p2, p3, p4, p5, p6, p8, p9, p10, h1, h2, h3, h4, h5, h6, h8,
      h9, h10, hreq⟩ := search_ok_elim h
    subst hreq
    show pfind (stepSize si p10) "boundary.circle.radius" = some cr
    rw [stepSize_pfind_ne _ _ (by decide),
      stepStringField_pfind_ne h10 (by decide),
      stepLayers_pfind_ne h9 (by decide), stepSources_pfind_ne h8 (by decide)]
    exact stepRadiusSearch_pfind_self cr p6 ht
  · intro pt cr so la co si dr req ht h
    obtain ⟨a, sa, b, sb, p8, p9, p10, hl, ha, hsa, hb, hsb, h8, h9, h10,
      hreq⟩ := reverse_ok_elim h
    subst hreq
    show pfind (stepSize si p10) "boundary.circle.radius"
      = some (.str (pyStr cr))
    rw [stepSize_pfind_ne _ _ (by decide),
      stepStringField_pfind_ne h10 (by decide),
      stepLayers_pfind_ne h9 (by decide), stepSources_pfind_ne h8 (by decide)]
    exact stepRadiusReverse_pfind_self cr _ ht

/-- C10 witness: with `circle_radius = 50`, search keeps the integer
`50` while reverse stores the string `"50"`. -/
theorem C10_witness :
    pfind (Request.mk "/geocode/search"
        [("text", PyVal.str "x"), ("boundary.circle.radius", PyVal.int 50)]
        PyVal.none).params "boundary.circle.radius" = some (PyVal.int 50) ∧
    pfind (Request.mk "/geocode/reverse"
        [("point.lon", PyVal.str "1"), ("point.lat", PyVal.str "2"),
         ("boundary.circle.radius", PyVal.str "50")] PyVal.none).params
      "boundary.circle.radius" = some (PyVal.str "50") :=
  ⟨C10_circle_radius_raw_vs_str.1 (PyVal.str "x") PyVal.none PyVal.none
      PyVal.none PyVal.none PyVal.none PyVal.none (PyVal.int 50) PyVal.none
      PyVal.none PyVal.none PyVal.none PyVal.none _ rfl rfl,
   C10_circle_radius_raw_vs_str.2 (.tuple (pyList [.int 1, .int 2]))
      (PyVal.int 50) PyVal.none PyVal.none PyVal.none PyVal.none PyVal.none
      _ rfl rfl⟩

theorem getItem_nonseq {v : PyVal} (i : Nat) (hl : isList v = false)
    (hs : isStr v = false) :
    getItem v i = .error (.typeError "object is not subscriptable") := by
  cases v with
  | str s => simp [isStr] at hs
  | list xs => simp [isList] at hl
  | tuple xs => simp [isList] at hl
  | none => rfl
  | bool b => rfl
  | int n => rfl
  | float m e => rfl

/-- C4, counterexample: the claim says a supplied non-sequence
`focus_point` raises an invalid-type error, but the falsy non-sequence
`focus_point = 0` is silently ignored and the request is delegated. -/
theorem C4_counterexample :
    isList (.int 0) = false ∧
    pelias_search (.str "x") (.int 0) .none .none .none .none .none .none
      .none .none .none .none .none
      = .ok ⟨"/geocode/search", [("text", PyVal.str "x")], .none⟩ :=
  ⟨rfl, rfl⟩

/-- C4 (amended): reverse geocoding always raises the invalid-type error
for a non-sequence `point`; free-text search has no explicit check, so a
supplied non-sequence `focus_point`/`circle_point` errors before
delegation only when it is truthy and not a string (the subscript
raises), while a falsy non-sequence is silently ignored. -/
theorem C4_point_type_errors :
    (∀ pt cr so la co si dr, isList pt = false →
      pelias_reverse pt cr so la co si dr
        = .error (.typeError "Point must be a list/tuple of coordinates.")) ∧
    (∀ t fp rx ry RX RY cp cr so la co si dr,
      truthy fp = true → isList fp = false → isStr fp = false →
      ∃ e, pelias_search t fp rx ry RX RY cp cr so la co si dr = .error e) ∧
    (∀ t fp rx ry RX RY cp cr so la co si dr,
      truthy cp = true → isList cp = false → isStr cp = false →
      ∃ e, pelias_search t fp rx ry RX RY cp cr so la co si dr = .error e) := by
  refine ⟨?_, ?_, ?_⟩
  · intro pt cr so la co si dr hl
    unfold pelias_reverse
    rw [if_pos (by simp [hl])]
    simp [throw, throwThe, MonadExceptOf.throw, Bind.bind, Except.bind]
  · intro t fp rx ry RX RY cp cr so la co si dr ht hl hs
    cases hres : pelias_search t fp rx ry RX RY cp cr so la co si dr with
    | error e => exact ⟨e, rfl⟩
    | ok req =>
      exfalso
      obtain ⟨p1, p2, p3, p4, p5, p6, p8, p9, p10, h1, h2, h3, h4, h5, h6,
        h8, h9, h10, hreq⟩ := search_ok_elim hres
      rcases stepPoint_ok_elim h1 with ⟨hft, _⟩ | ⟨_, a, sa, b, sb, ha, _⟩
      · rw [ht] at hft; cases hft
      · rw [getItem_nonseq 0 hl hs] at ha; cases ha
  · intro t fp rx ry RX RY cp cr so la co si dr ht hl hs
    cases hres : pelias_search t fp rx ry RX RY cp cr so la co si dr with
    | error e => exact ⟨e, rfl⟩
    | ok req =>
      exfalso
      obtain ⟨p1, p2, p3, p4, p5, p6, p8, p9, p10, h1, h2, h3, h4, h5, h6,
        h8, h9, h10, hreq⟩ := search_ok_elim hres
      rcases stepPoint_ok_elim h6 with ⟨hft, _⟩ | ⟨_, a, sa, b, sb, ha, _⟩
      · rw [ht] at hft; cases hft
      · rw [getItem_nonseq 0 hl hs] at ha; cases ha

/-- C4 witness: a non-sequence point in reverse raises the exact type
error; a truthy non-sequence `focus_point`/`circle_point` in search
errors before any request. -/
theorem C4_witness :
    pelias_reverse (.int 5) .none .none .none .none .none .none
      = .error (.typeError "Point must be a list/tuple of coordinates.") ∧
    (∃ e, pelias_search (.str "x") (.bool true) .none .none .none .none .none
      .none .none .none .none .none .none = .error e) ∧
    (∃ e, pelias_search (.str "x") .none .none .none .none .none (.bool true)
      .none .none .none .none .none .none = .error e) :=
  ⟨C4_point_type_errors.1 (PyVal.int 5) PyVal.none PyVal.none PyVal.none
      PyVal.none PyVal.none PyVal.none rfl,
   C4_point_type_errors.2.1 (PyVal.str "x") (PyVal.bool true) PyVal.none
      PyVal.none PyVal.none PyVal.none PyVal.none PyVal.none PyVal.none
      PyVal.none PyVal.none PyVal.none PyVal.none rfl rfl rfl,
   C4_point_type_errors.2.2 (PyVal.str "x") PyVal.none PyVal.none PyVal.none
      PyVal.none PyVal.none (PyVal.bool true) PyVal.none PyVal.none
      PyVal.none PyVal.none PyVal.none PyVal.none rfl rfl rfl⟩

/-- C6: whenever one of the validation checks of an operation fails, the
operation's result is an error — and since in this embedding a request
is issued exactly when the result is `.ok`, `client.request` is never
invoked on a failing execution. -/
theorem C6_no_partial_request :
    (∀ t fp rx ry RX RY cp cr so la co si dr,
      ((truthy so = true ∧ isList so = false) ∨
       (truthy so = true ∧ allInStrList (elems so) valid_sources = false) ∨
       (truthy la = true ∧ isList la = false) ∨
       (truthy la = true ∧ allInStrList (elems la) valid_layers = false) ∨
       (truthy co = true ∧ isStr co = false)) →
      ∃ e, pelias_search t fp rx ry RX RY cp cr so la co si dr = .error e) ∧
    (∀ t f1 f2 f3 f4 f5 f6 f7 f8 dr,
      ((truthy f1 = true ∧ isStr f1 = false) ∨
       (truthy f2 = true ∧ isStr f2 = false) ∨
       (truthy f3 = true ∧ isStr f3 = false) ∨
       (truthy f4 = true ∧ isStr f4 = false) ∨
       (truthy f5 = true ∧ isStr f5 = false) ∨
       (truthy f6 = true ∧ isStr f6 = false) ∨
       (truthy f7 = true ∧ isStr f7 = false) ∨
       (truthy f8 = true ∧ isStr f8 = false)) →
      ∃ e, pelias_structured t f1 f2 f3 f4 f5 f6 f7 f8 dr = .error e) ∧
    (∀ pt cr so la co si dr,
      (isList pt = false ∨
       (truthy so = true ∧ isList so = false) ∨
       (truthy so = true ∧ allInStrList (elems so) valid_sources = false) ∨
       (truthy la = true ∧ isList la = false) ∨
       (truthy la = true ∧ allInStrList (elems la) valid_layers = false) ∨
       (truthy co = true ∧ isStr co = false)) →
      ∃ e, pelias_reverse pt cr so la co si dr = .error e) := by
  refine ⟨?_, ?_, ?_⟩
  · intro t fp rx ry RX RY cp cr so la co si dr hcond
    cases hres : pelias_search t fp rx ry RX RY cp cr so la co si dr with
    | error e => exact ⟨e, rfl⟩
    | ok req =>
      exfalso
      obtain ⟨p1, p2, p3, p4, p5, p6, p8, p9, p10, h1, h2, h3, h4, h5, h6,
        h8, h9, h10, hreq⟩ := search_ok_elim hres
      rcases hcond with ⟨ht, hl⟩ | ⟨ht, ha⟩ | ⟨ht, hl⟩ | ⟨ht, ha⟩ | ⟨ht, hs⟩
      · rw [stepSources_err_type _ ht hl] at h8; cases h8
      · by_cases hl : isList so
        · rw [stepSources_err_val _ ht hl ha] at h8; cases h8
        · rw [stepSources_err_type _ ht (by simpa using hl)] at h8; cases h8
      · rw [stepLayers_err_type _ ht hl] at h9; cases h9
      · by_cases hl : isList la
        · rw [stepLayers_err_val _ ht hl ha] at h9; cases h9
        · rw [stepLayers_err_type _ ht (by simpa using hl)] at h9; cases h9
      · rw [stepStringField_err _ ht hs] at h10; cases h10
  · intro t f1 f2 f3 f4 f5 f6 f7 f8 dr hcond
    cases hres : pelias_structured t f1 f2 f3 f4 f5 f6 f7 f8 dr with
    | error e => exact ⟨e, rfl⟩
    | ok req =>
      exfalso
      obtain ⟨p1, p2, p3, p4, p5, p6, p7, p8, h1, h2, h3, h4, h5, h6, h7, h8,
        hreq⟩ := structured_ok_elim hres
      rcases hcond with ⟨ht, hs⟩ | ⟨ht, hs⟩ | ⟨ht, hs⟩ | ⟨ht, hs⟩ | ⟨ht, hs⟩
        | ⟨ht, hs⟩ | ⟨ht, hs⟩ | ⟨ht, hs⟩
      · rw [stepStringField_err _ ht hs] at h1; cases h1
      · rw [stepStringField_err _ ht hs] at h2; cases h2
      · rw [stepStringField_err _ ht hs] at h3; cases h3
      · rw [stepStringField_err _ ht hs] at h4; cases h4
      · rw [stepStringField_err _ ht hs] at h5; cases h5
      · rw [stepStringField_err _ ht hs] at h6; cases h6
      · rw [stepStringField_err _ ht hs] at h7; cases h7
      · rw [stepStringField_err _ ht hs] at h8; cases h8
  · intro pt cr so la co si dr hcond
    cases hres : pelias_reverse pt cr so la co si dr with
    | error e => exact ⟨e, rfl⟩
    | ok req =>
      exfalso
      obtain ⟨a, sa, b, sb, p8, p9, p10, hlt, ha, hsa, hb, hsb, h8, h9, h10,
        hreq⟩ := reverse_ok_elim hres
      rcases hcond with hpt | ⟨ht, hl⟩ | ⟨ht, hav⟩ | ⟨ht, hl⟩ | ⟨ht, hav⟩
        | ⟨ht, hs⟩
      · rw [hpt] at hlt; cases hlt
      · rw [stepSources_err_type _ ht hl] at h8; cases h8
      · by_cases hl : isList so
        · rw [stepSources_err_val _ ht hl hav] at h8; cases h8
        · rw [stepSources_err_type _ ht (by simpa using hl)] at h8; cases h8
      · rw [stepLayers_err_type _ ht hl] at h9; cases h9
      · by_cases hl : isList la
        · rw [stepLayers_err_val _ ht hl hav] at h9; cases h9
        · rw [stepLayers_err_type _ ht (by simpa using hl)] at h9; cases h9
      · rw [stepStringField_err _ ht hs] at h10; cases h10

/-- C6 witness: one failing execution of each operation (a string
`sources`, an integer `address`, an integer `point`) ends in an error,
never in a request. -/
theorem C6_witness :
    (∃ e, pelias_search (.str "x") .none .none .none .none .none .none .none
      (.str "osm") .none .none .none .none = .error e) ∧
    (∃ e, pelias_structured (.str "x") (.int 42) .none .none .none .none
      .none .none .none .none = .error e) ∧
    (∃ e, pelias_reverse (.int 5) .none .none .none .none .none .none
      = .error e) :=
  ⟨C6_no_partial_request.1 (PyVal.str "x") PyVal.none PyVal.none PyVal.none
      PyVal.none PyVal.none PyVal.none PyVal.none (PyVal.str "osm")
      PyVal.none PyVal.none PyVal.none PyVal.none (Or.inl ⟨rfl, rfl⟩),
   C6_no_partial_request.2.1 (PyVal.str "x") (PyVal.int 42) PyVal.none
      PyVal.none PyVal.none PyVal.none PyVal.none PyVal.none PyVal.none
      PyVal.none (Or.inl ⟨rfl, rfl⟩),
   C6_no_partial_request.2.2 (PyVal.int 5) PyVal.none PyVal.none PyVal.none
      PyVal.none PyVal.none PyVal.none (Or.inl rfl)⟩

/-- C8, counterexample: the empty list is a valid subset of the source
tokens (as a sequence), yet — being falsy — it produces no `sources` key
at all, rather than the comma-joined value `""` the claim requires for
every valid subset. -/
theorem C8_counterexample :
    allInStrList PyList.nil valid_sources = true ∧
    pelias_search (.str "x") .none .none .none .none .none .none .none
      (.list PyList.nil) .none .none .none .none
      = .ok ⟨"/geocode/search", [("text", PyVal.str "x")], .none⟩ :=
  ⟨rfl, rfl⟩

/-- C8 (amended): for every *nonempty* (hence truthy) `sources` sequence
of valid tokens the produced value is the comma-joined input in the
given order; a sequence containing an invalid token raises the value
error whose message lists the four valid tokens — identically in
free-text search and reverse geocoding.  (The empty valid subset is
falsy and produces no key, see the counterexample.) -/
theorem C8_sources_join_and_error :
    (∀ t fp rx ry RX RY cp cr so la co si dr req,
      truthy so = true → isList so = true →
      allInStrList (elems so) valid_sources = true →
      pelias_search t fp rx ry RX RY cp cr so la co si dr = .ok req →
      pfind req.params "sources" = some (.str (commaList (elems so)))) ∧
    (∀ pt cr so la co si dr req,
      truthy so = true → isList so = true →
      allInStrList (elems so) valid_sources = true →
      pelias_reverse pt cr so la co si dr = .ok req →
      pfind req.params "sources" = some (.str (commaList (elems so)))) ∧
    (∀ t so,
      truthy so = true → isList so = true →
      allInStrList (elems so) valid_sources = false →
      pelias_search t .none .none .none .none .none .none .none so .none
        .none .none .none = .error (.valueError sourcesValueMsg)) ∧
    (∀ so,
      truthy so = true → isList so = true →
      allInStrList (elems so) valid_sources = false →
      pelias_reverse (.tuple (pyList [.int 1, .int 2])) .none so .none .none
        .none .none = .error (.valueError sourcesValueMsg)) ∧
    sourcesValueMsg
      = "Source must be one or more of [\x27osm\x27, \x27oa\x27, \x27wof\x27, \x27gn\x27]" := by
  refine ⟨?_, ?_, ?_, ?_, rfl⟩
  · intro t fp rx ry RX RY cp cr so la co si dr req ht _ _ h
    obtain ⟨p1, p2, p3, p4, p5, p6, p8, p9, p10, h1, h2, h3, h4, h5, h6, h8,
      h9, h10, hreq⟩ := search_ok_elim h
    subst hreq
    show pfind (stepSize si p10) "sources" = some (.str (commaList (elems so)))
    rw [stepSize_pfind_ne _ _ (by decide),
      stepStringField_pfind_ne h10 (by decide),
      stepLayers_pfind_ne h9 (by decide)]
    exact stepSources_pfind_self h8 ht
  · intro pt cr so la co si dr req ht _ _ h
    obtain ⟨a, sa, b, sb, p8, p9, p10, hlt, ha, hsa, hb, hsb, h8, h9, h10,
      hreq⟩ := reverse_ok_elim h
    subst hreq
    show pfind (stepSize si p10) "sources" = some (.str (commaList (elems so)))
    rw [stepSize_pfind_ne _ _ (by decide),
      stepStringField_pfind_ne h10 (by decide),
      stepLayers_pfind_ne h9 (by decide)]
    exact stepSources_pfind_self h8 ht
  · intro t so ht hl ha
    have heq : pelias_search t .none .none .none .none .none .none .none so
        .none .none .none .none
        = stepSources so [("text", t)] >>= (fun p =>
            stepLayers .none p >>= fun p =>
            stepStringField "country" "Country must be a string." .none p >>=
              fun p =>
            pure ⟨"/geocode/search", stepSize .none p, .none⟩) := rfl
    rw [heq, stepSources_err_val _ ht hl ha]
    simp [Bind.bind, Except.bind]
  · intro so ht hl ha
    have heq : pelias_reverse (.tuple (pyList [.int 1, .int 2])) .none so
        .none .none .none .none
        = stepSources so
            [("point.lon", PyVal.str "1"), ("point.lat", PyVal.str "2")]
            >>= (fun p =>
            stepLayers .none p >>= fun p =>
            stepStringField "country" "Country must be a string." .none p >>=
              fun p =>
            pure ⟨"/geocode/reverse", stepSize .none p, .none⟩) := rfl
    rw [heq, stepSources_err_val _ ht hl ha]
    simp [Bind.bind, Except.bind]

/-- C8 witness: `sources=["osm", "wof"]` joins to `"osm,wof"` in a
search call, and `sources=["foo"]` raises the value error that lists
the four tokens. -/
theorem C8_witness :
    pfind (Request.mk "/geocode/search"
        [("text", PyVal.str "x"), ("sources", PyVal.str "osm,wof")]
        PyVal.none).params "sources"
      = some (.str (commaList (elems
          (.list (pyList [.str "osm", .str "wof"]))))) ∧
    pelias_search (.str "x") .none .none .none .none .none .none .none
      (.list (pyList [.str "foo"])) .none .none .none .none
      = .error (.valueError sourcesValueMsg) :=
  ⟨C8_sources_join_and_error.1 (PyVal.str "x") PyVal.none PyVal.none
      PyVal.none PyVal.none PyVal.none PyVal.none PyVal.none
      (.list (pyList [.str "osm", .str "wof"])) PyVal.none PyVal.none
      PyVal.none PyVal.none _ rfl rfl rfl rfl,
   C8_sources_join_and_error.2.2.1 (PyVal.str "x")
      (.list (pyList [.str "foo"])) rfl rfl rfl⟩

end Geocode
